import Mathlib

/-!
Verification of the invoice pricing engine (`src/invoice_service.py`).

The Python module computes the total payable amount of an invoice:
validation, subtotal/fragile-fee aggregation, tiered shipping lookup,
discount stacking, tax, and final combination.  Monetary amounts are
embedded as rationals (the spec stipulates exact real-number semantics
for the sums); Python `None` for a missing invoice or absent coupon is
`Option`; the `ValueError` raised on validation failure is
`Except.error`.
-/

deriving instance DecidableEq for Except

/-- Dataclass `LineItem` of the source. -/
structure LineItem where
  sku : String
  category : String
  unit_price : ℚ
  qty : Int
  fragile : Bool
  deriving DecidableEq, Repr

/-- Dataclass `Invoice` of the source.  `coupon : Optional[str]` becomes
`Option String`. -/
structure Invoice where
  invoice_id : String
  customer_id : String
  country : String
  membership : String
  coupon : Option String
  items : List LineItem
  deriving DecidableEq, Repr

/-- Table `InvoiceService.VALID_CATEGORIES`. -/
def VALID_CATEGORIES : List String := ["book", "food", "electronics", "other"]

/-- Table `InvoiceService.SHIPPING_RULES`: country → ordered (threshold, fee) pairs. -/
def SHIPPING_RULES : List (String × List (ℚ × ℚ)) :=
  [("TH", [(500, 60)]),
   ("JP", [(4000, 600)]),
   ("US", [(100, 15), (300, 8)]),
   ("OTHER", [(200, 25)])]

/-- Table `InvoiceService.TAX_RATE`. -/
def TAX_RATE : List (String × ℚ) :=
  [("TH", 7/100), ("JP", 10/100), ("US", 8/100), ("OTHER", 5/100)]

/-- Table `InvoiceService.MEMBERSHIP_DISCOUNT`. -/
def MEMBERSHIP_DISCOUNT : List (String × ℚ) :=
  [("gold", 3/100), ("platinum", 5/100)]

/-- Table `self._coupon_rate` set in `InvoiceService.__init__`. -/
def coupon_rate : List (String × ℚ) :=
  [("WELCOME10", 10/100), ("VIP20", 20/100), ("STUDENT5", 5/100)]

/-- Python `dict` access used by the source (`d.get(k, dflt)` and `d[k]`,
and `k in d`): first binding of the key in the table, `none` when the key
is absent. -/
def dict_lookup {β : Type} (k : String) : List (String × β) → Option β
  | [] => none
  | (k2, v) :: rest => if k = k2 then some v else dict_lookup k rest

/-- Method `InvoiceService._validate_item`: the problems appended for one item,
in the source's check order.  Python `not it.sku` is the empty-string test. -/
def validate_item (it : LineItem) : List String :=
  (if it.sku = "" then ["Item sku is missing"] else []) ++
  (if it.qty ≤ 0 then ["Invalid qty for " ++ it.sku] else []) ++
  (if it.unit_price < 0 then ["Invalid price for " ++ it.sku] else []) ++
  (if VALID_CATEGORIES.contains it.category then []
   else ["Unknown category for " ++ it.sku])

/-- Method `InvoiceService._validate`: `inv is None` short-circuits, otherwise all
invoice-level problems then every item's problems, in detection order. -/
def validate : Option Invoice → List String
  | none => ["Invoice is missing"]
  | some inv =>
      (if inv.invoice_id = "" then ["Missing invoice_id"] else []) ++
      (if inv.customer_id = "" then ["Missing customer_id"] else []) ++
      (if inv.items = [] then ["Invoice must contain items"] else []) ++
      inv.items.flatMap validate_item

/-- Method `InvoiceService._calculate_subtotal`: a single left fold accumulating
`(subtotal, fragile_fee)` exactly as the Python loop does. -/
def calculate_subtotal (items : List LineItem) : ℚ × ℚ :=
  items.foldl
    (fun acc it =>
      (acc.1 + it.unit_price * (it.qty : ℚ),
       if it.fragile then acc.2 + 5 * (it.qty : ℚ) else acc.2))
    (0, 0)

/-- Lookup `self.SHIPPING_RULES.get(country, self.SHIPPING_RULES["OTHER"])`. -/
def shipping_rules_for (country : String) : List (ℚ × ℚ) :=
  (dict_lookup country SHIPPING_RULES).getD ((dict_lookup "OTHER" SHIPPING_RULES).getD [])

/-- The scan loop of `_calculate_shipping`: first fee whose threshold
strictly exceeds the subtotal, else `0.0`. -/
def first_fee (subtotal : ℚ) : List (ℚ × ℚ) → ℚ
  | [] => 0
  | (limit, fee) :: rest => if subtotal < limit then fee else first_fee subtotal rest

/-- Method `InvoiceService._calculate_shipping`. -/
def calculate_shipping (country : String) (subtotal : ℚ) : ℚ :=
  first_fee subtotal (shipping_rules_for country)

/-- Python `str.strip()`: remove leading and trailing whitespace.
Spelled over the character list so that it evaluates by kernel
reduction. -/
def pystrip (s : String) : String :=
  ⟨((s.data.dropWhile Char.isWhitespace).reverse.dropWhile Char.isWhitespace).reverse⟩

/-- Method `InvoiceService._calculate_discount`.  The Python signature mutates a
`warnings` list; here the returned pair carries the discount and the
warnings this call appends.  `if inv.coupon:` is Python truthiness:
false for `None` and for the empty string. -/
def calculate_discount (inv : Invoice) (subtotal : ℚ) : ℚ × List String :=
  let base : ℚ :=
    match dict_lookup inv.membership MEMBERSHIP_DISCOUNT with
    | some rate => subtotal * rate
    | none => if subtotal > 3000 then 20 else 0
  match inv.coupon with
  | none => (base, [])
  | some c =>
      if c = "" then (base, [])
      else
        match dict_lookup (pystrip c) coupon_rate with
        | some rate => (base + subtotal * rate, [])
        | none => (base, ["Unknown coupon"])

/-- Lookup `self.TAX_RATE.get(country, self.TAX_RATE["OTHER"])`. -/
def tax_rate_for (country : String) : ℚ :=
  (dict_lookup country TAX_RATE).getD ((dict_lookup "OTHER" TAX_RATE).getD 0)

/-- Method `InvoiceService._calculate_tax`. -/
def calculate_tax (country : String) (taxable_amount : ℚ) : ℚ :=
  taxable_amount * tax_rate_for country

/-- Python's builtin `max` on two values: the second argument is returned
only when it is strictly greater than the first.  (On ℚ this agrees with
`max`, see `pymax_eq_max`; it is spelled out so that it evaluates by
kernel reduction.) -/
def pymax (a b : ℚ) : ℚ := if a < b then b else a

/-- Method `InvoiceService.compute_total`.  A raised `ValueError` is
`Except.error` carrying the joined message; success returns
`(total, warnings)`. -/
def compute_total (oinv : Option Invoice) : Except String (ℚ × List String) :=
  let problems := validate oinv
  if problems = [] then
    match oinv with
    | none => Except.error "Invoice is missing"
    | some inv =>
        let st := calculate_subtotal inv.items
        let subtotal := st.1
        let fragile_fee := st.2
        let shipping := calculate_shipping inv.country subtotal
        let dw := calculate_discount inv subtotal
        let discount := dw.1
        let warnings := dw.2
        let tax := calculate_tax inv.country (subtotal - discount)
        let total := pymax (subtotal + shipping + fragile_fee + tax - discount) 0
        let warnings2 :=
          if 10000 < subtotal ∧ dict_lookup inv.membership MEMBERSHIP_DISCOUNT = none
          then warnings ++ ["Consider membership upgrade"]
          else warnings
        Except.ok (total, warnings2)
  else Except.error (String.intercalate "; " problems)

/-- The pre-clamp total of `compute_total`, assembled from the source's
helper calls exactly as lines 135–140 do. -/
def raw_total (inv : Invoice) : ℚ :=
  let subtotal := (calculate_subtotal inv.items).1
  let fragile_fee := (calculate_subtotal inv.items).2
  let shipping := calculate_shipping inv.country subtotal
  let discount := (calculate_discount inv subtotal).1
  let tax := calculate_tax inv.country (subtotal - discount)
  subtotal + shipping + fragile_fee + tax - discount

/-- The condition under which `_calculate_discount` appends
"Unknown coupon": a Python-truthy coupon whose stripped code is not a
recognised coupon (see `discount_warnings`). -/
def coupon_warns (inv : Invoice) : Bool :=
  match inv.coupon with
  | none => false
  | some c => !(c == "") && (dict_lookup (pystrip c) coupon_rate).isNone

/-- Shipping fee as §4.3 of the spec words it: the fee of the first
(threshold, fee) tuple, scanned in stored order, whose threshold strictly
exceeds the subtotal; `0.0` when no tuple matches or the list is empty. -/
def shipping_fee_spec (country : String) (subtotal : ℚ) : ℚ :=
  match (shipping_rules_for country).find? (fun p => decide (subtotal < p.1)) with
  | some p => p.2
  | none => 0

/-- Membership / large-order discount contribution as §4.4 rule 1 of the
spec words it: the tier rate when the tier is recognised, otherwise a flat
20 exactly when the subtotal exceeds 3000. -/
def membership_part (inv : Invoice) (subtotal : ℚ) : ℚ :=
  match dict_lookup inv.membership MEMBERSHIP_DISCOUNT with
  | some rate => subtotal * rate
  | none => if subtotal > 3000 then 20 else 0

/-- Coupon discount contribution as §4.4 rule 2 of the spec words it
(a coupon is present when the field is a non-empty string). -/
def coupon_part (inv : Invoice) (subtotal : ℚ) : ℚ :=
  match inv.coupon with
  | none => 0
  | some c =>
      if c = "" then 0
      else
        match dict_lookup (pystrip c) coupon_rate with
        | some rate => subtotal * rate
        | none => 0

/-- Subtotal as §4.2 of the spec words it: the sum over items of
`unit_price * qty`. -/
def subtotal_spec (items : List LineItem) : ℚ :=
  (items.map (fun it => it.unit_price * (it.qty : ℚ))).sum

/-- Fragile fee as §4.2 of the spec words it: the sum of `5.0 * qty` over
the fragile items. -/
def fragile_fee_spec (items : List LineItem) : ℚ :=
  (items.map (fun it => if it.fragile then 5 * (it.qty : ℚ) else 0)).sum

/-- Scenario A item of the spec: a single book. -/
def itemA : LineItem where
  sku := "B1"
  category := "book"
  unit_price := 500
  qty := 1
  fragile := false

/-- Scenario A invoice of the spec: TH, no membership, no coupon. -/
def invA : Invoice where
  invoice_id := "I1"
  customer_id := "C1"
  country := "TH"
  membership := "none"
  coupon := none
  items := [itemA]

/-- A structurally broken invoice: empty identifiers and no items. -/
def invEmpty : Invoice where
  invoice_id := ""
  customer_id := ""
  country := "TH"
  membership := "none"
  coupon := none
  items := []

/-- Scenario C item: a single 4000-priced unit. -/
def itemC : LineItem where
  sku := "E1"
  category := "electronics"
  unit_price := 4000
  qty := 1
  fragile := false

/-- Scenario C invoice of the spec: US, gold membership, WELCOME10. -/
def invC : Invoice where
  invoice_id := "I3"
  customer_id := "C3"
  country := "US"
  membership := "gold"
  coupon := some "WELCOME10"
  items := [itemC]

/-- Scenario D invoice of the spec: unknown coupon "BOGUS". -/
def invD : Invoice where
  invoice_id := "I4"
  customer_id := "C4"
  country := "OTHER"
  membership := "none"
  coupon := some "BOGUS"
  items := [{ itemA with unit_price := 1000 }]

/-- A large order without membership and with an unknown coupon: both
advisory warnings apply. -/
def invBig : Invoice where
  invoice_id := "I5"
  customer_id := "C5"
  country := "US"
  membership := "none"
  coupon := some "BOGUS"
  items := [{ itemA with unit_price := 20000 }]

/-- An invoice whose coupon field is the empty string. -/
def invEmptyCoupon : Invoice where
  invoice_id := "I6"
  customer_id := "C6"
  country := "TH"
  membership := "none"
  coupon := some ""
  items := [itemA]

/-- An invoice whose coupon is a whitespace-only string. -/
def invSpaceCoupon : Invoice where
  invoice_id := "I7"
  customer_id := "C7"
  country := "TH"
  membership := "none"
  coupon := some " "
  items := [itemA]

/-- A second line item for permutation tests. -/
def itemF : LineItem where
  sku := "F1"
  category := "food"
  unit_price := 30
  qty := 2
  fragile := true

/-- An invoice with a country recognised by neither table. -/
def invX : Invoice where
  invoice_id := "I8"
  customer_id := "C8"
  country := "XX"
  membership := "none"
  coupon := none
  items := [itemA]

/-- Function `pymax` agrees with `max` on ℚ. -/
theorem pymax_eq_max (a b : ℚ) : pymax a b = max a b := by
  rcases lt_or_le a b with h | h
  · simp [pymax, h, max_eq_right h.le]
  · simp [pymax, not_lt.mpr h, max_eq_left h]

/-- Scenario A of the spec: a 500-priced book shipped to TH with no
membership and no coupon totals 535 with no warnings. -/
theorem scenario_a : compute_total (some invA) = Except.ok ((535 : ℚ), []) := by
  simp [compute_total, validate, validate_item, invA, itemA,
    calculate_subtotal, calculate_shipping, shipping_rules_for, first_fee,
    calculate_discount, pystrip, calculate_tax, tax_rate_for, pymax,
    SHIPPING_RULES, TAX_RATE, MEMBERSHIP_DISCOUNT, coupon_rate,
    VALID_CATEGORIES, dict_lookup]
  norm_num

/-- The warnings appended by `_calculate_discount` do not depend on the
subtotal: they are exactly one "Unknown coupon" under `coupon_warns`. -/
theorem discount_warnings (inv : Invoice) (s : ℚ) :
    (calculate_discount inv s).2 = if coupon_warns inv then ["Unknown coupon"] else [] := by
  unfold calculate_discount coupon_warns
  cases hc : inv.coupon with
  | none => simp
  | some c =>
      by_cases h0 : c = ""
      · simp [h0]
      · cases hr : dict_lookup (pystrip c) coupon_rate with
        | none => simp [h0, hr]
        | some r => simp [h0, hr]

/-- On a valid invoice `compute_total` succeeds, returning the clamped
`raw_total` and the coupon warning followed by the upgrade advisory. -/
theorem compute_total_ok (inv : Invoice) (hv : validate (some inv) = []) :
    compute_total (some inv) =
      Except.ok (pymax (raw_total inv) 0,
        (if coupon_warns inv then ["Unknown coupon"] else []) ++
        (if 10000 < (calculate_subtotal inv.items).1 ∧
            dict_lookup inv.membership MEMBERSHIP_DISCOUNT = none
         then ["Consider membership upgrade"] else [])) := by
  have h2 := discount_warnings inv (calculate_subtotal inv.items).1
  by_cases hcond : 10000 < (calculate_subtotal inv.items).1 ∧
      dict_lookup inv.membership MEMBERSHIP_DISCOUNT = none
  · simp only [compute_total, raw_total, hv, h2]
    simp [hcond]
  · simp only [compute_total, raw_total, hv, h2]
    simp [hcond]

/-- The scan loop of `_calculate_shipping` returns the fee of the first
matching pair, in the sense of `List.find?`. -/
theorem first_fee_find (s : ℚ) (l : List (ℚ × ℚ)) :
    first_fee s l = (match l.find? (fun p => decide (s < p.1)) with
      | some p => p.2
      | none => 0) := by
  induction l with
  | nil => rfl
  | cons hd tl ih =>
      obtain ⟨limit, fee⟩ := hd
      by_cases h : s < limit
      · simp [first_fee, List.find?_cons, h]
      · simp [first_fee, List.find?_cons, h, ih]

/-- The aggregation loop of `_calculate_subtotal`, for any starting
accumulator. -/
theorem calculate_subtotal_foldl (items : List LineItem) (a b : ℚ) :
    items.foldl
      (fun acc it =>
        (acc.1 + it.unit_price * (it.qty : ℚ),
         if it.fragile then acc.2 + 5 * (it.qty : ℚ) else acc.2))
      (a, b) = (a + subtotal_spec items, b + fragile_fee_spec items) := by
  induction items generalizing a b with
  | nil => simp [subtotal_spec, fragile_fee_spec]
  | cons hd tl ih =>
      simp only [List.foldl_cons, ih, subtotal_spec, fragile_fee_spec,
        List.map_cons, List.sum_cons]
      cases hf : hd.fragile <;> simp [hf, Prod.ext_iff] <;>
        first
        | exact ⟨by ring, by ring⟩
        | ring

/-- Every configured tax rate, the "OTHER" fallback included, is positive. -/
theorem tax_rate_pos (country : String) : 0 < tax_rate_for country := by
  simp only [tax_rate_for, TAX_RATE, dict_lookup]
  split_ifs <;> norm_num

/-- C1: for every invoice that passes validation, `compute_total` succeeds
and the returned total is `max(subtotal + shipping + fragile_fee + tax -
discount, 0.0)`; in particular it is nonnegative. -/
theorem total_is_clamped_nonneg (inv : Invoice) (hv : validate (some inv) = []) :
    ∃ warnings,
      compute_total (some inv) = Except.ok (max (raw_total inv) 0, warnings) ∧
      0 ≤ max (raw_total inv) 0 :=
  ⟨_, by rw [compute_total_ok inv hv, pymax_eq_max], le_max_right _ _⟩

/-- C1 witness: the clamp theorem applied to Scenario A's invoice. -/
theorem total_is_clamped_nonneg_witness :
    validate (some invA) = [] ∧
    ∃ warnings,
      compute_total (some invA) = Except.ok (max (raw_total invA) 0, warnings) ∧
      0 ≤ max (raw_total invA) 0 :=
  ⟨by decide, total_is_clamped_nonneg invA (by decide)⟩

/-- C3: the shipping fee is the fee of the first configured (threshold,
fee) pair whose threshold strictly exceeds the subtotal, `0.0` when none
matches, and an unrecognised country uses the "OTHER" list. -/
theorem shipping_first_threshold (country : String) (subtotal : ℚ) :
    calculate_shipping country subtotal = shipping_fee_spec country subtotal ∧
    (dict_lookup country SHIPPING_RULES = none →
      calculate_shipping country subtotal = calculate_shipping "OTHER" subtotal) := by
  constructor
  · unfold calculate_shipping shipping_fee_spec
    exact first_fee_find subtotal (shipping_rules_for country)
  · intro h
    unfold calculate_shipping shipping_rules_for
    rw [h]
    rfl

/-- C3 witness: an unrecognised country falls back to the "OTHER" rules. -/
theorem shipping_first_threshold_witness :
    dict_lookup "ZZ" SHIPPING_RULES = none ∧
    calculate_shipping "ZZ" 150 = shipping_fee_spec "ZZ" 150 ∧
    calculate_shipping "ZZ" 150 = calculate_shipping "OTHER" 150 :=
  ⟨by decide, (shipping_first_threshold "ZZ" 150).1,
   (shipping_first_threshold "ZZ" 150).2 (by decide)⟩

/-- C4: the discount is the sum of the membership / large-order
contribution and the coupon contribution, with no cap applied to the
sum. -/
theorem discount_additive (inv : Invoice) (subtotal : ℚ) :
    (calculate_discount inv subtotal).1 =
      membership_part inv subtotal + coupon_part inv subtotal := by
  unfold calculate_discount membership_part coupon_part
  cases hc : inv.coupon with
  | none => simp
  | some c =>
      by_cases h0 : c = ""
      · simp [h0]
      · cases hr : dict_lookup (pystrip c) coupon_rate with
        | none => simp [h0, hr]
        | some r => simp [h0, hr]

/-- C8: the aggregator returns the sum of `unit_price * qty` and the sum
of `5.0 * qty` over fragile items, and both are invariant under
permutation of the item list. -/
theorem aggregator_sums_and_perm (items : List LineItem) :
    calculate_subtotal items = (subtotal_spec items, fragile_fee_spec items) ∧
    ∀ items2 : List LineItem, items.Perm items2 →
      calculate_subtotal items = calculate_subtotal items2 := by
  have key : ∀ l : List LineItem,
      calculate_subtotal l = (subtotal_spec l, fragile_fee_spec l) := by
    intro l
    unfold calculate_subtotal
    rw [calculate_subtotal_foldl]
    simp
  refine ⟨key items, ?_⟩
  intro items2 hp
  rw [key items, key items2]
  have h1 : subtotal_spec items = subtotal_spec items2 := by
    unfold subtotal_spec
    exact (hp.map fun it => it.unit_price * (it.qty : ℚ)).sum_eq
  have h2 : fragile_fee_spec items = fragile_fee_spec items2 := by
    unfold fragile_fee_spec
    exact (hp.map fun it => if it.fragile then 5 * (it.qty : ℚ) else 0).sum_eq
  rw [h1, h2]

/-- C8 witness: swapping the two items of a concrete list changes neither
the subtotal nor the fragile fee. -/
theorem aggregator_sums_and_perm_witness :
    [itemA, itemF].Perm [itemF, itemA] ∧
    calculate_subtotal [itemA, itemF] = calculate_subtotal [itemF, itemA] :=
  ⟨List.Perm.swap itemF itemA [],
   (aggregator_sums_and_perm [itemA, itemF]).2 [itemF, itemA]
     (List.Perm.swap itemF itemA [])⟩

/-- C2: `compute_total` fails exactly when the validator's problem list is
non-empty, the error message joins every problem with "; " in detection
order, a missing invoice yields the single problem "Invoice is missing",
an empty item list contributes "Invoice must contain items", and problems
are collected rather than short-circuited. -/
theorem failure_joins_all_problems (oinv : Option Invoice) :
    ((∃ e, compute_total oinv = Except.error e) ↔ validate oinv ≠ []) ∧
    (validate oinv ≠ [] →
      compute_total oinv = Except.error (String.intercalate "; " (validate oinv))) ∧
    validate none = ["Invoice is missing"] ∧
    (∀ inv : Invoice, inv.items = [] →
      "Invoice must contain items" ∈ validate (some inv)) ∧
    (∀ inv : Invoice, inv.invoice_id = "" → inv.customer_id = "" → inv.items = [] →
      validate (some inv) =
        ["Missing invoice_id", "Missing customer_id", "Invoice must contain items"]) := by
  have herr : validate oinv ≠ [] →
      compute_total oinv = Except.error (String.intercalate "; " (validate oinv)) := by
    intro h
    simp only [compute_total]
    rw [if_neg h]
  refine ⟨⟨?_, ?_⟩, herr, rfl, ?_, ?_⟩
  · rintro ⟨e, he⟩ hv
    cases oinv with
    | none => simp [validate] at hv
    | some inv =>
        rw [compute_total_ok inv hv] at he
        exact Except.noConfusion he
  · intro h
    exact ⟨_, herr h⟩
  · intro inv h
    simp [validate, h]
  · intro inv h1 h2 h3
    simp [validate, h1, h2, h3]

/-- C2 witness: an invoice with empty identifiers and no items fails with
all three problems joined in order. -/
theorem failure_joins_all_problems_witness :
    compute_total (some invEmpty) =
      Except.error (String.intercalate "; " (validate (some invEmpty))) ∧
    "Invoice must contain items" ∈ validate (some invEmpty) ∧
    validate (some invEmpty) =
      ["Missing invoice_id", "Missing customer_id", "Invoice must contain items"] :=
  ⟨(failure_joins_all_problems (some invEmpty)).2.1 (by decide),
   (failure_joins_all_problems (some invEmpty)).2.2.2.1 invEmpty rfl,
   (failure_joins_all_problems (some invEmpty)).2.2.2.2 invEmpty rfl rfl rfl⟩

/-- C5: a valid invoice carrying a present coupon whose stripped code is
unrecognised does not fail: the discount calculator returns only the
membership contribution together with exactly the warning
"Unknown coupon", and `compute_total` succeeds with that warning. -/
theorem unknown_coupon_warns_not_fails (inv : Invoice) (c : String)
    (hv : validate (some inv) = []) (hc : inv.coupon = some c) (h0 : c ≠ "")
    (hun : dict_lookup (pystrip c) coupon_rate = none) :
    (∀ subtotal : ℚ,
      calculate_discount inv subtotal = (membership_part inv subtotal, ["Unknown coupon"])) ∧
    ∃ total warnings, compute_total (some inv) = Except.ok (total, warnings) ∧
      "Unknown coupon" ∈ warnings := by
  have hw : coupon_warns inv = true := by
    unfold coupon_warns
    rw [hc]
    simp [h0, hun]
  constructor
  · intro subtotal
    unfold calculate_discount membership_part
    rw [hc]
    simp [h0, hun]
  · refine ⟨_, _, compute_total_ok inv hv, ?_⟩
    rw [hw]
    simp

/-- C5 witness: Scenario D's invoice with coupon "BOGUS" succeeds and
warns. -/
theorem unknown_coupon_warns_not_fails_witness :
    validate (some invD) = [] ∧ invD.coupon = some "BOGUS" ∧
    ∃ total warnings, compute_total (some invD) = Except.ok (total, warnings) ∧
      "Unknown coupon" ∈ warnings :=
  ⟨by decide, rfl,
   (unknown_coupon_warns_not_fails invD "BOGUS" (by decide) rfl (by decide)
     (by decide)).2⟩

/-- C6: tax is `taxable_amount * rate` with the rate looked up by country
and falling back to the "OTHER" rate (5%), it is negative on a negative
taxable amount, and inside `compute_total` the tax term is applied to
`subtotal - discount`, with shipping and fragile fees outside the base. -/
theorem tax_on_subtotal_minus_discount (inv : Invoice) (hv : validate (some inv) = []) :
    (∀ t : ℚ, calculate_tax inv.country t = t * tax_rate_for inv.country) ∧
    (dict_lookup inv.country TAX_RATE = none → tax_rate_for inv.country = 5/100) ∧
    (∀ t : ℚ, t < 0 → calculate_tax inv.country t < 0) ∧
    ∃ warnings, compute_total (some inv) =
      Except.ok (pymax
        ((calculate_subtotal inv.items).1
          + calculate_shipping inv.country (calculate_subtotal inv.items).1
          + (calculate_subtotal inv.items).2
          + ((calculate_subtotal inv.items).1
              - (calculate_discount inv (calculate_subtotal inv.items).1).1)
            * tax_rate_for inv.country
          - (calculate_discount inv (calculate_subtotal inv.items).1).1) 0,
        warnings) := by
  refine ⟨fun t => rfl, ?_, ?_, ?_⟩
  · intro h
    unfold tax_rate_for
    rw [h]
    rfl
  · intro t ht
    unfold calculate_tax
    exact mul_neg_of_neg_of_pos ht (tax_rate_pos inv.country)
  · refine ⟨(if coupon_warns inv then ["Unknown coupon"] else []) ++
      (if 10000 < (calculate_subtotal inv.items).1 ∧
          dict_lookup inv.membership MEMBERSHIP_DISCOUNT = none
       then ["Consider membership upgrade"] else []), ?_⟩
    rw [compute_total_ok inv hv]
    rfl

/-- C6 witness: a country in neither table uses the 5% fallback rate, and
a negative taxable amount yields negative tax. -/
theorem tax_on_subtotal_minus_discount_witness :
    validate (some invX) = [] ∧
    dict_lookup invX.country TAX_RATE = none ∧
    tax_rate_for invX.country = 5/100 ∧
    calculate_tax invX.country (-1) < 0 :=
  ⟨by decide, by decide,
   (tax_on_subtotal_minus_discount invX (by decide)).2.1 (by decide),
   (tax_on_subtotal_minus_discount invX (by decide)).2.2.1 (-1) (by decide)⟩

/-- C9: on every valid invoice the returned warnings are exactly the
coupon warning (when due) followed by "Consider membership upgrade"
exactly when `subtotal > 10000` and the membership tier is unrecognised;
the total is the clamped raw total regardless of the advisory. -/
theorem upgrade_advisory_spec (inv : Invoice) (hv : validate (some inv) = []) :
    ∃ total, compute_total (some inv) =
      Except.ok (total,
        (if coupon_warns inv then ["Unknown coupon"] else []) ++
        (if 10000 < (calculate_subtotal inv.items).1 ∧
            dict_lookup inv.membership MEMBERSHIP_DISCOUNT = none
         then ["Consider membership upgrade"] else [])) ∧
      total = pymax (raw_total inv) 0 :=
  ⟨_, compute_total_ok inv hv, rfl⟩

/-- C9 witness: a 20000 subtotal with no membership tier and a bogus
coupon produces both warnings, coupon warning first. -/
theorem upgrade_advisory_spec_witness :
    validate (some invBig) = [] ∧
    ∃ total, compute_total (some invBig) =
      Except.ok (total,
        (if coupon_warns invBig then ["Unknown coupon"] else []) ++
        (if 10000 < (calculate_subtotal invBig.items).1 ∧
            dict_lookup invBig.membership MEMBERSHIP_DISCOUNT = none
         then ["Consider membership upgrade"] else [])) ∧
      total = pymax (raw_total invBig) 0 :=
  ⟨by decide, upgrade_advisory_spec invBig (by decide)⟩

/-- C10: an empty-string coupon is treated as absent (no discount, no
warning, computation succeeds without "Unknown coupon"), while a
whitespace-only coupon is present but strips to an unrecognised code and
warns "Unknown coupon". -/
theorem empty_coupon_is_absent (inv : Invoice) (subtotal : ℚ) :
    (inv.coupon = some "" →
      calculate_discount inv subtotal = (membership_part inv subtotal, []) ∧
      coupon_warns inv = false) ∧
    (∀ c, inv.coupon = some c → c ≠ "" → pystrip c = "" →
      calculate_discount inv subtotal = (membership_part inv subtotal, ["Unknown coupon"])) ∧
    (inv.coupon = some "" → validate (some inv) = [] →
      ∃ total warnings, compute_total (some inv) = Except.ok (total, warnings) ∧
        "Unknown coupon" ∉ warnings) := by
  have hnone : dict_lookup "" coupon_rate = none := by decide
  refine ⟨?_, ?_, ?_⟩
  · intro hc
    constructor
    · unfold calculate_discount membership_part
      rw [hc]
      simp
    · unfold coupon_warns
      rw [hc]
      simp
  · intro c hc h0 hs
    unfold calculate_discount membership_part
    rw [hc]
    simp [h0, hs, hnone]
  · intro hc hv
    have hw : coupon_warns inv = false := by
      unfold coupon_warns
      rw [hc]
      simp
    refine ⟨_, _, compute_total_ok inv hv, ?_⟩
    rw [hw]
    by_cases hcond : 10000 < (calculate_subtotal inv.items).1 ∧
        dict_lookup inv.membership MEMBERSHIP_DISCOUNT = none
    · simp [hcond]
    · simp [hcond]

/-- C10 witness: the empty-string coupon neither discounts nor warns,
while the single-space coupon warns "Unknown coupon". -/
theorem empty_coupon_is_absent_witness :
    (calculate_discount invEmptyCoupon 500 =
       (membership_part invEmptyCoupon 500, []) ∧
     coupon_warns invEmptyCoupon = false) ∧
    calculate_discount invSpaceCoupon 500 =
      (membership_part invSpaceCoupon 500, ["Unknown coupon"]) ∧
    ∃ total warnings,
      compute_total (some invEmptyCoupon) = Except.ok (total, warnings) ∧
      "Unknown coupon" ∉ warnings :=
  ⟨(empty_coupon_is_absent invEmptyCoupon 500).1 rfl,
   (empty_coupon_is_absent invSpaceCoupon 500).2.1 " " rfl (by decide) (by decide),
   (empty_coupon_is_absent invEmptyCoupon 500).2.2 rfl (by decide)⟩

/-- C7: Scenario C — one 4000-priced item, US, gold membership, coupon
WELCOME10 — totals 3758.4 with discount 520, shipping 0, tax 278.4 and no
warnings. -/
theorem scenario_c_breakdown :
    compute_total (some invC) = Except.ok ((3758.4 : ℚ), []) ∧
    calculate_subtotal invC.items = ((4000 : ℚ), 0) ∧
    calculate_shipping "US" 4000 = 0 ∧
    (calculate_discount invC 4000).1 = 520 ∧
    calculate_tax "US" (4000 - 520) = (278.4 : ℚ) := by
  have hstrip : pystrip "WELCOME10" = "WELCOME10" := by decide
  refine ⟨?_, ?_, ?_, ?_, ?_⟩ <;>
    simp [compute_total, validate, validate_item, invC, itemC,
      calculate_subtotal, calculate_shipping, shipping_rules_for, first_fee,
      calculate_discount, hstrip, calculate_tax, tax_rate_for, pymax,
      SHIPPING_RULES, TAX_RATE, MEMBERSHIP_DISCOUNT, coupon_rate,
      VALID_CATEGORIES, dict_lookup] <;> norm_num
